import Mathlib

/-!
Verification of the core logic of `app.py` (Cebu travel recommendation MVP):
the geo utility (`haversine`), the Google Places search adapter
(`search_places`), the response cache, and the filter/sort/truncate/estimate
recommendation pipeline.  Python floats are modelled as real numbers, JSON
optional fields as `Option`, and the HTTP layer as an explicit outcome datum.
-/

noncomputable section

open Real (pi)

set_option linter.unusedVariables false

/-- `math.radians`: degrees to radians, `x * (pi / 180)`. -/
def radians (x : ℝ) : ℝ := x * (pi / 180)

/-- Model of `math.atan2 y x` (two-argument arctangent, C semantics,
ignoring signed zeros). -/
def atan2 (y x : ℝ) : ℝ :=
  if 0 < x then Real.arctan (y / x)
  else if x < 0 then
    (if 0 ≤ y then Real.arctan (y / x) + pi else Real.arctan (y / x) - pi)
  else if 0 < y then pi / 2
  else if y < 0 then -(pi / 2)
  else 0

/-- `haversine` (app.py lines 47-56): great-circle distance in km between
two (lat, lon) pairs, Earth radius `R = 6371`. -/
def haversine (lat1 lon1 lat2 lon2 : ℝ) : ℝ :=
  let R : ℝ := 6371
  let dlat := radians (lat2 - lat1)
  let dlon := radians (lon2 - lon1)
  let a := Real.sin (dlat / 2) ^ 2
    + Real.cos (radians lat1) * Real.cos (radians lat2) * Real.sin (dlon / 2) ^ 2
  R * 2 * atan2 (Real.sqrt a) (Real.sqrt (1 - a))

/-! ### Place Search Adapter data model (app.py lines 61-118) -/

/-- Provider JSON `geometry.location` object: both coordinates optional. -/
structure Loc where
  lat : Option ℝ
  lng : Option ℝ

/-- Provider JSON `geometry` object. -/
structure Geometry where
  location : Option Loc

/-- Provider JSON `opening_hours` object; `open_now` may be absent. -/
structure OpeningHours where
  open_now : Option Bool

/-- One place object of the provider response; every field the code reads
is optional (`dict.get`). -/
structure PlaceJson where
  name : Option String
  rating : Option ℝ
  user_ratings_total : Option ℕ
  geometry : Option Geometry
  opening_hours : Option OpeningHours
  vicinity : Option String
  place_id : Option String

/-- The provider response body: top-level `status`, optional
`error_message`, and the `results` array (absent modelled as `[]`,
matching `data.get("results", [])`). -/
structure ApiResponse where
  status : Option String
  error_message : Option String
  results : List PlaceJson

/-- Outcome of the HTTP request in `search_places`: a parsed JSON body, a
timeout (`requests.exceptions.Timeout`), another transport failure
(`requests.exceptions.RequestException`, which also covers
`raise_for_status` and malformed-body errors), or any other exception. -/
inductive HttpOutcome where
  | timeout
  | transportError (cause : String)
  | unexpectedError (cause : String)
  | body (data : ApiResponse)

/-- The normalized record built in the loop at app.py lines 96-106. -/
structure PlaceRecord where
  name : String
  rating : ℝ
  reviews : ℕ
  lat : ℝ
  lng : ℝ
  address : String
  is_open : Option Bool
  place_id : String
  dist_km : ℝ

/-- Normalization of one place object (app.py lines 84-106): defaults for
missing fields, `is_open` threaded through both optional levels, and
`dist_km` computed by `haversine` from the query origin. -/
def normalizePlace (lat lng : ℝ) (p : PlaceJson) : PlaceRecord :=
  let loc := p.geometry.bind Geometry.location
  let p_lat := (loc.bind Loc.lat).getD 0
  let p_lng := (loc.bind Loc.lng).getD 0
  { name := p.name.getD "이름 없음"
    rating := p.rating.getD 0
    reviews := p.user_ratings_total.getD 0
    lat := p_lat
    lng := p_lng
    address := p.vicinity.getD ""
    is_open := p.opening_hours.bind OpeningHours.open_now
    place_id := p.place_id.getD ""
    dist_km := haversine lat lng p_lat p_lng }

/-- What one call of `search_places` produces: the message shown through
`st.error` (if any) and the returned list. -/
structure SearchRun where
  displayedError : Option String
  ret : List PlaceRecord

/-- `error_msg` at app.py line 79:
`data.get("error_message", data.get("status", "알 수 없는 오류"))`. -/
def providerErrorMessage (d : ApiResponse) : String :=
  d.error_message.getD (d.status.getD "알 수 없는 오류")

/-- `search_places` (app.py lines 62-118) with the HTTP layer abstracted
into an explicit `HttpOutcome`; `keyword` and `radius` only shape the
provider request, which the outcome already reflects. -/
def search_places (lat lng : ℝ) (keyword : String) (radius : ℕ)
    (outcome : HttpOutcome) : SearchRun :=
  match outcome with
  | .body data =>
    if data.status ≠ some "OK" ∧ data.status ≠ some "ZERO_RESULTS" then
      ⟨some ("🚨 Google API 오류: " ++ providerErrorMessage data), []⟩
    else
      ⟨none, data.results.map (normalizePlace lat lng)⟩
  | .timeout => ⟨some "🚨 API 요청 시간 초과 — 잠시 후 다시 시도해 주세요.", []⟩
  | .transportError e => ⟨some ("🚨 네트워크 오류: " ++ e), []⟩
  | .unexpectedError e => ⟨some ("🚨 예상치 못한 오류: " ++ e), []⟩

/-- True exactly on the failure paths of `search_places`: timeout,
transport error, unexpected exception, or a provider status other than
`"OK"`/`"ZERO_RESULTS"` (a missing status included). -/
def isFailure : HttpOutcome → Bool
  | .timeout => true
  | .transportError _ => true
  | .unexpectedError _ => true
  | .body d => !(d.status == some "OK") && !(d.status == some "ZERO_RESULTS")

/-- The tri-state open status of the spec (§3). -/
inductive OpenStatus where
  | OPEN
  | CLOSED
  | UNKNOWN
  deriving DecidableEq

/-- The branch structure at app.py lines 197-202: `is_open is True` /
`is False` / otherwise. -/
def openStatusOf (is_open : Option Bool) : OpenStatus :=
  match is_open with
  | some true => .OPEN
  | some false => .CLOSED
  | none => .UNKNOWN

/-! ### Recommendation pipeline (app.py lines 176-187, 241-247) -/

/-- The rating filter of app.py line 181, `p["rating"] >= 4.0`,
generalized over the threshold as §4.3 of the spec does. -/
def filteredBy (raw : List PlaceRecord) (minRating : ℝ) : List PlaceRecord :=
  raw.filter fun p => decide (p.rating ≥ minRating)

/-- The sort key comparison of app.py line 182 (`key=lambda x: x["dist_km"]`;
Python `list.sort` is a stable sort, as is `List.mergeSort`). -/
def distLE (a b : PlaceRecord) : Bool := decide (a.dist_km ≤ b.dist_km)

/-- Filter then stable-sort ascending by `dist_km` (app.py lines 181-182). -/
def sortedBy (raw : List PlaceRecord) (minRating : ℝ) : List PlaceRecord :=
  (filteredBy raw minRating).mergeSort distLE

/-- The full record pipeline: filter, stable sort by distance, truncate
(app.py lines 181-183), generalized over `minRating` and `topN`. -/
def recommendRecords (raw : List PlaceRecord) (minRating : ℝ) (topN : ℕ) :
    List PlaceRecord :=
  (sortedBy raw minRating).take topN

/-- `top10` as in app.py line 183: the pipeline at the code's fixed
threshold 4.0 and cutoff 10. -/
def top10 (raw : List PlaceRecord) : List PlaceRecord :=
  recommendRecords raw 4 10

/-- `avg_dist` (app.py line 242): mean `dist_km` over the shown records. -/
def avg_dist (l : List PlaceRecord) : ℝ :=
  (l.map PlaceRecord.dist_km).sum / (l.length : ℝ)

/-- `grab_est` (app.py line 243): `max(60, 40 + avg_dist * 15)`. -/
def grab_est (l : List PlaceRecord) : ℝ :=
  max 60 (40 + avg_dist l * 15)

/-- What the main script does with a raw search result: stop with a
warning when it is empty (lines 176-178), stop when nothing rates 4.0+
(lines 185-187), otherwise show the top-10 list with its average distance
and Grab estimate (lines 189-247, the estimate guarded by `if top10:`). -/
inductive FlowOutcome where
  | stoppedNoResults
  | stoppedNoQualifying
  | shown (records : List PlaceRecord) (avg est : ℝ)

/-- The main script's control flow over an already-fetched raw list. -/
def mainFlow (raw : List PlaceRecord) : FlowOutcome :=
  if raw.isEmpty then .stoppedNoResults
  else if (top10 raw).isEmpty then .stoppedNoQualifying
  else .shown (top10 raw) (avg_dist (top10 raw)) (grab_est (top10 raw))

/-! ### Response cache (app.py line 61) -/

/-- The argument tuple `st.cache_data` keys the cache by:
(lat, lng, keyword, radius). -/
def SearchKey : Type := ℝ × ℝ × String × ℕ

/-- Modelled from the spec: one cache entry of the `st.cache_data`
response cache (the decorator's implementation is library code outside
this repository) — the stored return value and its insertion time in
seconds. -/
structure CacheEntry where
  stored : List PlaceRecord
  insertedAt : ℕ

/-- Modelled from the spec: the cache contents, keyed by the exact
argument tuple. -/
def CacheState : Type := SearchKey → Option CacheEntry

def emptyCache : CacheState := fun _ => none

open Classical in
/-- Modelled from the spec: inserting an entry under a key. -/
def cacheInsert (c : CacheState) (k : SearchKey) (e : CacheEntry) : CacheState :=
  fun q => if q = k then some e else c q

/-- Modelled from the spec: a lookup is fresh while less than the ttl of
3600 seconds old. -/
def cacheFresh (c : CacheState) (now : ℕ) (k : SearchKey) :
    Option (List PlaceRecord) :=
  match c k with
  | some e => if now < e.insertedAt + 3600 then some e.stored else none
  | none => none

/-- One cached call: the cache afterwards, the returned list, and whether
the provider was actually invoked. -/
structure CachedRun where
  cache : CacheState
  ret : List PlaceRecord
  providerInvoked : Bool

/-- Modelled from the spec: `st.cache_data(ttl=3600)` get-or-compute
memoization around `search_places` — a fresh entry is returned without a
provider call; otherwise the provider is invoked and the function's
RETURN VALUE is stored, whatever it is.  `search_places` (in the
repository) returns normally on every failure path instead of raising,
so failure results are stored like any other. -/
def cachedSearch (c : CacheState) (now : ℕ) (k : SearchKey)
    (outcome : HttpOutcome) : CachedRun :=
  match cacheFresh c now k with
  | some r => ⟨c, r, false⟩
  | none =>
    let r := (search_places k.1 k.2.1 k.2.2.1 k.2.2.2 outcome).ret
    ⟨cacheInsert c k ⟨r, now⟩, r, true⟩

/-! ### Sample inputs used by witnesses and counterexamples -/

/-- A place object with every optional field absent. -/
def pEmpty : PlaceJson := ⟨none, none, none, none, none, none, none⟩

/-- An outcome whose body carries the failure status `OVER_QUERY_LIMIT`
and no error message. -/
def overLimitBody : HttpOutcome := .body ⟨some "OVER_QUERY_LIMIT", none, []⟩

/-- A successful empty response: status `ZERO_RESULTS`, no results. -/
def zeroBody : HttpOutcome := .body ⟨some "ZERO_RESULTS", none, []⟩

/-- A concrete cache key: the first hotel's coordinates, the spa keyword,
3 km radius. -/
def k0 : SearchKey := (10.3119, 123.8916, "spa|massage", 3000)

/-- A record that passes the 4.0 rating filter, 1 km away. -/
def recA : PlaceRecord := ⟨"A", 4.5, 10, 0, 0, "", none, "", 1⟩

/-- A qualifying record 0 km away. -/
def rec0 : PlaceRecord := ⟨"Z", 5, 0, 0, 0, "", none, "", 0⟩

/-- A qualifying record 10 km away. -/
def rec10 : PlaceRecord := ⟨"T", 5, 0, 0, 0, "", none, "", 10⟩

/-! ### Geo Utility lemmas -/

lemma atan2_zero_one : atan2 0 1 = 0 := by
  unfold atan2
  rw [if_pos one_pos]
  norm_num [Real.arctan_zero]

lemma arctan_nonneg_of_nonneg {t : ℝ} (ht : 0 ≤ t) : 0 ≤ Real.arctan t := by
  rw [← Real.arctan_zero]
  exact Real.arctan_strictMono.monotone ht

lemma atan2_nonneg {y x : ℝ} (hy : 0 ≤ y) (hx : 0 ≤ x) : 0 ≤ atan2 y x := by
  unfold atan2
  split_ifs with h1 h2 h3 h4 <;>
    first
      | exact arctan_nonneg_of_nonneg (div_nonneg hy (le_of_lt h1))
      | positivity
      | linarith

lemma haversine_nonneg (lat1 lon1 lat2 lon2 : ℝ) :
    0 ≤ haversine lat1 lon1 lat2 lon2 := by
  simp only [haversine]
  exact mul_nonneg (by norm_num)
    (atan2_nonneg (Real.sqrt_nonneg _) (Real.sqrt_nonneg _))

lemma haversine_self (lat lon : ℝ) : haversine lat lon lat lon = 0 := by
  simp only [haversine, radians, sub_self, zero_mul, zero_div, Real.sin_zero]
  norm_num [atan2_zero_one]

lemma haversine_comm (lat1 lon1 lat2 lon2 : ℝ) :
    haversine lat1 lon1 lat2 lon2 = haversine lat2 lon2 lat1 lon1 := by
  have h1 : ∀ x y : ℝ,
      Real.sin (radians (x - y) / 2) ^ 2 = Real.sin (radians (y - x) / 2) ^ 2 := by
    intro x y
    have h : radians (x - y) / 2 = -(radians (y - x) / 2) := by
      simp only [radians]; ring
    rw [h, Real.sin_neg, neg_sq]
  simp only [haversine]
  rw [h1 lat2 lat1, h1 lon2 lon1,
    mul_comm (Real.cos (radians lat1)) (Real.cos (radians lat2))]

/-- C9: `haversine` is a pure total function (a Lean `def` over ℝ) with
`haversine a a = 0` for every coordinate pair and symmetric in its two
coordinate arguments, using the haversine formula with Earth radius
6371 km. -/
theorem haversine_self_and_symm :
    (∀ lat lon : ℝ, haversine lat lon lat lon = 0) ∧
    (∀ lat1 lon1 lat2 lon2 : ℝ,
      haversine lat1 lon1 lat2 lon2 = haversine lat2 lon2 lat1 lon1) :=
  ⟨haversine_self, haversine_comm⟩

/-! ### Adapter theorems -/

/-- C8: every record produced by `search_places` carries a `dist_km` that
is recomputed by the geo utility `haversine` from the query origin and the
record's (possibly defaulted) location, and it is non-negative; the
provider response has no distance field at all in the model, so it is
never taken from upstream. -/
theorem dist_km_recomputed_nonneg (lat lng : ℝ) (keyword : String)
    (radius : ℕ) (o : HttpOutcome) :
    ∀ r ∈ (search_places lat lng keyword radius o).ret,
      r.dist_km = haversine lat lng r.lat r.lng ∧ 0 ≤ r.dist_km := by
  intro r hr
  cases o with
  | timeout => simp [search_places] at hr
  | transportError e => simp [search_places] at hr
  | unexpectedError e => simp [search_places] at hr
  | body d =>
    simp only [search_places] at hr
    by_cases h : d.status ≠ some "OK" ∧ d.status ≠ some "ZERO_RESULTS"
    · rw [if_pos h] at hr
      simp at hr
    · rw [if_neg h] at hr
      obtain ⟨p, hp, rfl⟩ := List.mem_map.mp hr
      exact ⟨rfl, haversine_nonneg _ _ _ _⟩

/-- Witness for C8: a concrete `"OK"` response with one field-less place
at the origin. -/
theorem dist_km_recomputed_nonneg_witness :
    (normalizePlace 0 0 pEmpty).dist_km =
      haversine 0 0 (normalizePlace 0 0 pEmpty).lat (normalizePlace 0 0 pEmpty).lng ∧
    0 ≤ (normalizePlace 0 0 pEmpty).dist_km :=
  dist_km_recomputed_nonneg 0 0 "spa|massage" 3000 (.body ⟨some "OK", none, [pEmpty]⟩)
    (normalizePlace 0 0 pEmpty) (by simp [search_places])

/-- C10: every failure path of `search_places` — timeout, transport-level
error, any other exception, or a provider status other than `"OK"` /
`"ZERO_RESULTS"` — returns the empty list, the same return value as a
successful `"ZERO_RESULTS"` search, so the two are indistinguishable at
the return-value interface. -/
theorem failure_paths_return_empty (lat lng : ℝ) (keyword : String)
    (radius : ℕ) (o : HttpOutcome) (h : isFailure o = true) :
    (search_places lat lng keyword radius o).ret = [] ∧
    (search_places lat lng keyword radius o).ret =
      (search_places lat lng keyword radius
        (.body ⟨some "ZERO_RESULTS", none, []⟩)).ret := by
  have hz : (search_places lat lng keyword radius
      (.body ⟨some "ZERO_RESULTS", none, []⟩)).ret = [] := by
    simp [search_places]
  cases o with
  | timeout => exact ⟨by simp [search_places], by simp [search_places, hz]⟩
  | transportError e => exact ⟨by simp [search_places], by simp [search_places, hz]⟩
  | unexpectedError e => exact ⟨by simp [search_places], by simp [search_places, hz]⟩
  | body d =>
    simp only [isFailure, Bool.and_eq_true, Bool.not_eq_true',
      beq_eq_false_iff_ne] at h
    constructor
    · simp [search_places, h.1, h.2]
    · rw [hz]
      simp [search_places, h.1, h.2]

/-- Witness for C10: the timeout path returns the empty list. -/
theorem failure_paths_return_empty_witness :
    (search_places 0 0 "cafe" 1000 .timeout).ret = [] :=
  (failure_paths_return_empty 0 0 "cafe" 1000 .timeout rfl).1

/-- C5: a provider response whose status is `"ZERO_RESULTS"` is a
success: no error is shown, the returned value is the normalized result
list, and with the empty `results` array such a response carries it is
the empty list. -/
theorem zero_results_is_success (lat lng : ℝ) (keyword : String)
    (radius : ℕ) (d : ApiResponse) (h : d.status = some "ZERO_RESULTS") :
    (search_places lat lng keyword radius (.body d)).displayedError = none ∧
    (search_places lat lng keyword radius (.body d)).ret =
      d.results.map (normalizePlace lat lng) ∧
    (d.results = [] → (search_places lat lng keyword radius (.body d)).ret = []) := by
  have hcond : ¬(d.status ≠ some "OK" ∧ d.status ≠ some "ZERO_RESULTS") := by
    intro hc
    exact hc.2 h
  refine ⟨?_, ?_, ?_⟩
  · simp only [search_places]
    rw [if_neg hcond]
  · simp only [search_places]
    rw [if_neg hcond]
  · intro hres
    simp only [search_places]
    rw [if_neg hcond, hres]
    rfl

/-- Witness for C5: the concrete empty `"ZERO_RESULTS"` response. -/
theorem zero_results_is_success_witness :
    (search_places 10.3119 123.8916 "cafe" 3000
      (.body ⟨some "ZERO_RESULTS", none, []⟩)).displayedError = none ∧
    (search_places 10.3119 123.8916 "cafe" 3000
      (.body ⟨some "ZERO_RESULTS", none, []⟩)).ret = [] :=
  ⟨(zero_results_is_success 10.3119 123.8916 "cafe" 3000
      ⟨some "ZERO_RESULTS", none, []⟩ rfl).1,
   (zero_results_is_success 10.3119 123.8916 "cafe" 3000
      ⟨some "ZERO_RESULTS", none, []⟩ rfl).2.2 rfl⟩

/-- C7: normalization defaults — name `"이름 없음"`, rating 0, review
count 0, location (0,0), empty address and external id — when the
respective provider field is absent, `is_open` read through the two
optional levels, and the tri-state: OPEN exactly on an explicit
`open_now = true`, CLOSED exactly on an explicit `false`, UNKNOWN exactly
when `open_now` is not reported. -/
theorem normalize_defaults_and_tristate (lat lng : ℝ) (p : PlaceJson) :
    (p.name = none → (normalizePlace lat lng p).name = "이름 없음") ∧
    (p.rating = none → (normalizePlace lat lng p).rating = 0) ∧
    (p.user_ratings_total = none → (normalizePlace lat lng p).reviews = 0) ∧
    (p.geometry.bind Geometry.location = none →
      (normalizePlace lat lng p).lat = 0 ∧ (normalizePlace lat lng p).lng = 0) ∧
    (p.vicinity = none → (normalizePlace lat lng p).address = "") ∧
    (p.place_id = none → (normalizePlace lat lng p).place_id = "") ∧
    ((normalizePlace lat lng p).is_open =
      p.opening_hours.bind OpeningHours.open_now) ∧
    (openStatusOf (normalizePlace lat lng p).is_open = .OPEN ↔
      p.opening_hours.bind OpeningHours.open_now = some true) ∧
    (openStatusOf (normalizePlace lat lng p).is_open = .CLOSED ↔
      p.opening_hours.bind OpeningHours.open_now = some false) ∧
    (openStatusOf (normalizePlace lat lng p).is_open = .UNKNOWN ↔
      p.opening_hours.bind OpeningHours.open_now = none) := by
  refine ⟨fun h => by simp [normalizePlace, h],
    fun h => by simp [normalizePlace, h],
    fun h => by simp [normalizePlace, h],
    fun h => by simp [normalizePlace, h],
    fun h => by simp [normalizePlace, h],
    fun h => by simp [normalizePlace, h],
    rfl, ?_, ?_, ?_⟩ <;>
  · cases hob : p.opening_hours.bind OpeningHours.open_now with
    | none => simp [normalizePlace, openStatusOf, hob]
    | some b => cases b <;> simp [normalizePlace, openStatusOf, hob]

/-- Witness for C7: the all-fields-absent place object. -/
theorem normalize_defaults_and_tristate_witness :
    (normalizePlace 0 0 pEmpty).name = "이름 없음" ∧
    (normalizePlace 0 0 pEmpty).rating = 0 ∧
    (normalizePlace 0 0 pEmpty).reviews = 0 ∧
    ((normalizePlace 0 0 pEmpty).lat = 0 ∧ (normalizePlace 0 0 pEmpty).lng = 0) ∧
    (normalizePlace 0 0 pEmpty).address = "" ∧
    (normalizePlace 0 0 pEmpty).place_id = "" ∧
    openStatusOf (normalizePlace 0 0 pEmpty).is_open = .UNKNOWN := by
  obtain ⟨h1, h2, h3, h4, h5, h6, h7, h8, h9, h10⟩ :=
    normalize_defaults_and_tristate 0 0 pEmpty
  exact ⟨h1 rfl, h2 rfl, h3 rfl, h4 rfl, h5 rfl, h6 rfl, h10.mpr rfl⟩

/-- C1 counterexample: at the concrete provider status
`"OVER_QUERY_LIMIT"` the `search_places` return value is the plain empty
list — identical to the return value of a successful `"ZERO_RESULTS"`
search — not an error result; the failure classification exists only on
the display channel (`st.error`). -/
theorem search_failure_not_error_result_cx :
    (search_places 10.3119 123.8916 "spa|massage" 3000 overLimitBody).ret = [] ∧
    (search_places 10.3119 123.8916 "spa|massage" 3000 overLimitBody).ret =
      (search_places 10.3119 123.8916 "spa|massage" 3000 zeroBody).ret ∧
    (search_places 10.3119 123.8916 "spa|massage" 3000 overLimitBody).displayedError =
      some ("🚨 Google API 오류: " ++ "OVER_QUERY_LIMIT") := by
  refine ⟨?_, ?_, ?_⟩ <;>
    simp [search_places, overLimitBody, zeroBody, providerErrorMessage]

/-- C1 amended: every failure mode of `search_places` is classified and
surfaced as a distinct user-visible error message — a provider status
other than `"OK"`/`"ZERO_RESULTS"` displays a message carrying the
provider's message (falling back to its status), a timeout displays the
timeout message, a transport failure and any other exception display
messages wrapping the underlying cause — while the function's return
value in every failure case is the empty list, not an error value. -/
theorem search_failures_display_distinct_messages (lat lng : ℝ)
    (keyword : String) (radius : ℕ) :
    (∀ d : ApiResponse, d.status ≠ some "OK" → d.status ≠ some "ZERO_RESULTS" →
      search_places lat lng keyword radius (.body d) =
        ⟨some ("🚨 Google API 오류: " ++ providerErrorMessage d), []⟩) ∧
    (search_places lat lng keyword radius .timeout =
      ⟨some "🚨 API 요청 시간 초과 — 잠시 후 다시 시도해 주세요.", []⟩) ∧
    (∀ e : String, search_places lat lng keyword radius (.transportError e) =
      ⟨some ("🚨 네트워크 오류: " ++ e), []⟩) ∧
    (∀ e : String, search_places lat lng keyword radius (.unexpectedError e) =
      ⟨some ("🚨 예상치 못한 오류: " ++ e), []⟩) := by
  refine ⟨?_, rfl, fun e => rfl, fun e => rfl⟩
  intro d h1 h2
  simp only [search_places]
  rw [if_pos ⟨h1, h2⟩]

/-- Witness for the amended C1: a concrete `"OVER_QUERY_LIMIT"` response
carrying a provider error message. -/
theorem search_failures_display_distinct_messages_witness :
    search_places 0 0 "cafe" 1000
      (.body ⟨some "OVER_QUERY_LIMIT", some "quota exceeded", []⟩) =
      ⟨some ("🚨 Google API 오류: " ++ providerErrorMessage
        ⟨some "OVER_QUERY_LIMIT", some "quota exceeded", []⟩), []⟩ :=
  (search_failures_display_distinct_messages 0 0 "cafe" 1000).1
    ⟨some "OVER_QUERY_LIMIT", some "quota exceeded", []⟩
    (by simp) (by simp)

/-! ### Recommendation pipeline theorems -/

lemma distLE_trans : ∀ a b c : PlaceRecord, distLE a b → distLE b c → distLE a c := by
  intro a b c hab hbc
  simp only [distLE, decide_eq_true_eq] at hab hbc ⊢
  exact le_trans hab hbc

lemma distLE_total : ∀ a b : PlaceRecord, distLE a b || distLE b a := by
  intro a b
  simp only [distLE, Bool.or_eq_true, decide_eq_true_eq]
  exact le_total a.dist_km b.dist_km

/-- C2: for every input list, threshold and cutoff, the pipeline returns
at most `topN` records, every returned record rates at least `minRating`,
the output is sorted non-decreasing by `dist_km`, and the sort is stable:
any list of records already in non-decreasing distance order that occurs
as a subsequence of the filtered input (ties in input order included)
still occurs as a subsequence of the sorted list — no secondary key is
imposed. -/
theorem recommend_filter_sort_truncate (raw : List PlaceRecord)
    (minRating : ℝ) (topN : ℕ) :
    (recommendRecords raw minRating topN).length ≤ topN ∧
    (∀ r ∈ recommendRecords raw minRating topN, r.rating ≥ minRating) ∧
    (recommendRecords raw minRating topN).Pairwise
      (fun a b => a.dist_km ≤ b.dist_km) ∧
    (∀ c : List PlaceRecord, c.Pairwise (fun a b => a.dist_km ≤ b.dist_km) →
      c.Sublist (filteredBy raw minRating) →
      c.Sublist (sortedBy raw minRating)) := by
  refine ⟨?_, ?_, ?_, ?_⟩
  · exact List.length_take_le _ _
  · intro r hr
    have h1 : r ∈ sortedBy raw minRating :=
      List.take_subset _ _ hr
    have h2 : r ∈ filteredBy raw minRating := by
      simpa only [sortedBy, List.mem_mergeSort] using h1
    have h3 := List.mem_filter.mp h2
    exact of_decide_eq_true h3.2
  · have hs : (sortedBy raw minRating).Pairwise fun a b => distLE a b :=
      List.sorted_mergeSort distLE_trans distLE_total _
    have ht : (recommendRecords raw minRating topN).Pairwise fun a b => distLE a b :=
      List.Pairwise.sublist (List.take_sublist _ _) hs
    exact ht.imp fun h => of_decide_eq_true h
  · intro c hc hsub
    exact List.sublist_mergeSort distLE_trans distLE_total
      (hc.imp fun h => decide_eq_true h) hsub

/-- Witness for C2: the singleton qualifying input. -/
theorem recommend_filter_sort_truncate_witness :
    recA.rating ≥ (4 : ℝ) ∧
    List.Sublist [] (sortedBy [recA] 4) :=
  ⟨(recommend_filter_sort_truncate [recA] 4 10).2.1 recA
    (by
      simp only [recommendRecords, sortedBy, filteredBy, List.filter,
        recA, List.mergeSort_singleton]
      norm_num),
   (recommend_filter_sort_truncate [recA] 4 10).2.2.2 []
    List.Pairwise.nil (List.nil_sublist _)⟩

/-- C3: the Grab transport estimate is exactly
`max(60, 40 + averageDistanceKm * 15)` where the average is the mean
`dist_km` over the shown (truncated) record list; at average distance 0
it is exactly 60, at average distance 10 exactly 190. -/
theorem grab_est_tariff (l : List PlaceRecord) :
    grab_est l =
      max 60 (40 + ((l.map PlaceRecord.dist_km).sum / (l.length : ℝ)) * 15) ∧
    (avg_dist l = 0 → grab_est l = 60) ∧
    (avg_dist l = 10 → grab_est l = 190) := by
  refine ⟨rfl, ?_, ?_⟩
  · intro h
    rw [grab_est, h]
    rw [show ((40 : ℝ) + 0 * 15) = 40 by ring]
    exact max_eq_left (by norm_num)
  · intro h
    rw [grab_est, h]
    rw [show ((40 : ℝ) + 10 * 15) = 190 by ring]
    exact max_eq_right (by norm_num)

/-- Witness for C3: singleton record lists at distance 0 and 10. -/
theorem grab_est_tariff_witness :
    grab_est [rec0] = 60 ∧ grab_est [rec10] = 190 :=
  ⟨(grab_est_tariff [rec0]).2.1 (by simp [avg_dist, rec0]),
   (grab_est_tariff [rec10]).2.2 (by simp [avg_dist, rec10])⟩

/-- C4 counterexample: on the empty raw list the script stops with the
"no results" warning (app.py lines 176-178) before the pipeline runs; it
does not produce a result with an empty record list, zero metrics and
estimate 60 (and produces no estimate at all, the estimate being guarded
by `if top10:`). -/
theorem empty_input_stops_cx :
    mainFlow [] = FlowOutcome.stoppedNoResults ∧
    FlowOutcome.stoppedNoResults ≠ FlowOutcome.shown [] 0 60 := by
  exact ⟨rfl, by simp⟩

/-- C4 amended: on the empty record list the app stops with a warning and
constructs no result; the pipeline stages themselves, extended to the
empty input, do yield the empty record list, and the estimate formula
floors to the base fare 60 at average distance 0.  (In app.py `avg_dist`
and `grab_est` are never evaluated on an empty list — `st.stop()` and the
`if top10:` guard prevent it, and `sum/len` would divide by zero there;
under Lean's `x / 0 = 0` convention the extension takes the spec's
stipulated values.) -/
theorem empty_input_stops_amended :
    mainFlow [] = FlowOutcome.stoppedNoResults ∧
    top10 [] = [] ∧
    avg_dist [] = 0 ∧
    grab_est [] = 60 := by
  have h0 : avg_dist [] = 0 := by
    simp [avg_dist]
  refine ⟨rfl, ?_, h0, ?_⟩
  · simp [top10, recommendRecords, sortedBy, filteredBy]
  · rw [grab_est, h0]
    rw [show ((40 : ℝ) + 0 * 15) = 40 by ring]
    exact max_eq_left (by norm_num)

/-! ### Cache theorems -/

/-- C6 counterexample: a failed search attempt (provider status
`"OVER_QUERY_LIMIT"`) does NOT leave the cache unchanged — `search_places`
returns normally (with `[]`) instead of raising, so the memoizing cache
stores that return value — and a subsequent identical search within the
window does NOT re-invoke the provider. -/
theorem failed_search_cached_cx :
    (cachedSearch emptyCache 0 k0 overLimitBody).providerInvoked = true ∧
    (cachedSearch emptyCache 0 k0 overLimitBody).cache k0 ≠ none ∧
    (cachedSearch (cachedSearch emptyCache 0 k0 overLimitBody).cache
      1 k0 overLimitBody).providerInvoked = false := by
  have h1 : cachedSearch emptyCache 0 k0 overLimitBody =
      ⟨cacheInsert emptyCache k0 ⟨[], 0⟩, [], true⟩ := by
    simp [cachedSearch, cacheFresh, emptyCache, search_places,
      overLimitBody, k0]
  have h2 : cacheInsert emptyCache k0 ⟨[], 0⟩ k0 = some ⟨[], 0⟩ := by
    simp [cacheInsert]
  refine ⟨by rw [h1], by rw [h1]; simp [h2], ?_⟩
  rw [h1]
  simp only [cachedSearch, cacheFresh, h2]
  norm_num

/-- C6 amended: searches are cached by the exact argument tuple for up to
1 hour, and two searches with an identical key within the window invoke
the provider at most once; but every completed call's RETURN VALUE is
cached, failure paths included (they return `[]` instead of raising), so
a failed attempt does populate the cache. -/
theorem cache_at_most_one_provider_call (c : CacheState) (t1 t2 : ℕ)
    (k : SearchKey) (o1 o2 : HttpOutcome) (hw : t2 < t1 + 3600) :
    ¬((cachedSearch c t1 k o1).providerInvoked = true ∧
      (cachedSearch (cachedSearch c t1 k o1).cache t2 k o2).providerInvoked = true) ∧
    (cacheFresh c t1 k = none →
      (cachedSearch c t1 k o1).cache k =
        some ⟨(search_places k.1 k.2.1 k.2.2.1 k.2.2.2 o1).ret, t1⟩) := by
  constructor
  · rintro ⟨hi1, hi2⟩
    cases hfresh : cacheFresh c t1 k with
    | some r =>
      rw [show cachedSearch c t1 k o1 = ⟨c, r, false⟩ by
        simp only [cachedSearch, hfresh]] at hi1
      exact Bool.false_ne_true hi1
    | none =>
      rw [show cachedSearch c t1 k o1 =
          ⟨cacheInsert c k ⟨(search_places k.1 k.2.1 k.2.2.1 k.2.2.2 o1).ret, t1⟩,
            (search_places k.1 k.2.1 k.2.2.1 k.2.2.2 o1).ret, true⟩ by
        simp only [cachedSearch, hfresh]] at hi2
    -- the second lookup hits the entry written at t1
      have hhit : cacheFresh
          (cacheInsert c k ⟨(search_places k.1 k.2.1 k.2.2.1 k.2.2.2 o1).ret, t1⟩)
          t2 k = some (search_places k.1 k.2.1 k.2.2.1 k.2.2.2 o1).ret := by
        simp [cacheFresh, cacheInsert, hw]
      rw [show cachedSearch
          (cacheInsert c k ⟨(search_places k.1 k.2.1 k.2.2.1 k.2.2.2 o1).ret, t1⟩)
          t2 k o2 =
          ⟨cacheInsert c k ⟨(search_places k.1 k.2.1 k.2.2.1 k.2.2.2 o1).ret, t1⟩,
            (search_places k.1 k.2.1 k.2.2.1 k.2.2.2 o1).ret, false⟩ by
        simp only [cachedSearch, hhit]] at hi2
      exact Bool.false_ne_true hi2
  · intro hmiss
    rw [show cachedSearch c t1 k o1 =
        ⟨cacheInsert c k ⟨(search_places k.1 k.2.1 k.2.2.1 k.2.2.2 o1).ret, t1⟩,
          (search_places k.1 k.2.1 k.2.2.1 k.2.2.2 o1).ret, true⟩ by
      simp only [cachedSearch, hmiss]]
    simp [cacheInsert]

/-- Witness for the amended C6: two identical searches at times 0 and 5
starting from the empty cache never invoke the provider twice. -/
theorem cache_at_most_one_provider_call_witness :
    ¬((cachedSearch emptyCache 0 k0 zeroBody).providerInvoked = true ∧
      (cachedSearch (cachedSearch emptyCache 0 k0 zeroBody).cache
        5 k0 zeroBody).providerInvoked = true) :=
  (cache_at_most_one_provider_call emptyCache 0 5 k0 zeroBody zeroBody
    (by norm_num)).1
